import Mathlib

/-!
# Hummingbird object-server engine: verification of spec claims

Shallow embedding of the dual-tier object storage engine of the hummingbird
repository (Go).  Pure fragments of the Go source are translated into Lean
functions; the effectful parts (HTTP calls to peer nodes, IndexDB mutations)
are modelled by an explicit environment of peer responses and an explicit
trace of requests issued and database operations applied.  The ring lookup
(`PartitionForHash`, `GetNodes`, `GetJobNodes`, `ReplicaCount`) is an external
collaborator (spec §1) and is modelled as a total oracle supplied by the
environment.

Sources embedded:
* `objectserver/repobj.go` — `repObject`: `commit`, `isStable`,
  `stabilizeDelete`, `restabilize`, `Stabilize`, `Replicate`.
* `objectserver/repobjeng.go` — `repEngine`: `New`, `GetObjectsToReplicate`,
  `getObjectsToStabilize`.
* the erasure-code engine file — `ecEngine`: `New`, `GetObjectsToReplicate`,
  `getObjectsToStabilize` (the Fisher–Yates shuffle).
* the replication job planner's `getPartMoveJobs` and `IndexDB.Commit` are not
  under the provided sources; they are modelled from the spec where needed and
  marked as such.
-/

namespace Hummingbird

/-- One IndexDB row, following the Go struct `IndexDBItem`
(hash, shard, timestamp, nursery, deletion, metahash, metabytes, path,
restabilize). `metabytes` is kept as an opaque string.  A hash is a
fixed-width hex string in Go, ordered lexicographically; that order is
isomorphic to the numeric order, so hashes are modelled as naturals. -/
structure IndexDBItem where
  hash : Nat
  shard : Nat
  timestamp : Int
  nursery : Bool
  deletion : Bool
  metahash : String
  metabytes : String
  path : String
  restabilize : Bool
deriving DecidableEq, Repr

/-- The constant `roShard = 0` from `repobjeng.go`. -/
def roShard : Nat := 0

/-! ## `GetObjectsToReplicate` merge-join (repobjeng.go 218-265, identical in
the ec engine).  The loop walks the sorted local list `items` with a cursor
`rii` into the sorted remote list. -/

/-- The equality test of the inner loop: the remote row matches the local item
when hash, timestamp, nursery and deletion all coincide. -/
def tupleMatch (r item : IndexDBItem) : Bool :=
  r.hash == item.hash && r.timestamp == item.timestamp &&
    r.nursery == item.nursery && r.deletion == item.deletion

/-- The inner `for rii < len(remoteItems)` loop of `GetObjectsToReplicate` for
one local item: returns whether the item is to be sent, and the remaining
remote suffix (the new cursor position).  Branches mirror the Go code:
`remote.Hash > item.Hash` breaks, `remote.Hash < item.Hash` advances, an equal
hash consumes the remote row and breaks, sending unless the full tuple
matches. -/
def skipRemote (item : IndexDBItem) : List IndexDBItem → Bool × List IndexDBItem
  | [] => (true, [])
  | r :: rs =>
    if item.hash < r.hash then (true, r :: rs)
    else if r.hash < item.hash then skipRemote item rs
    else (!(tupleMatch r item), rs)

/-- The outer loop of `GetObjectsToReplicate`: nursery items are skipped before
the merge; each non-nursery item is emitted iff the inner loop left `sendItem`
true.  (Per-item metadata-decode failures and cooperative cancellation abort
emission in the Go code; the model assumes decodable metadata and no
cancellation, which is what the claim describes.) -/
def getObjectsToReplicate : List IndexDBItem → List IndexDBItem → List IndexDBItem
  | [], _ => []
  | item :: items, rem =>
    if item.nursery then getObjectsToReplicate items rem
    else
      let sr := skipRemote item rem
      if sr.1 then item :: getObjectsToReplicate items sr.2
      else getObjectsToReplicate items sr.2

/-- The spec's description of the emitted set: elements of the local list that
are not nursery and have no equal `(hash, timestamp, nursery, deletion)`
counterpart in the remote list. -/
def replicateSpecFilter (locals remotes : List IndexDBItem) : List IndexDBItem :=
  locals.filter fun item => !item.nursery && !(remotes.any fun r => tupleMatch r item)

/-- Hash-sortedness used by the merge-join equivalence: strictly increasing
hashes. -/
@[reducible] def HashSorted (l : List IndexDBItem) : Prop :=
  l.Pairwise fun a b => a.hash < b.hash

instance : DecidablePred HashSorted := fun l =>
  inferInstanceAs (Decidable (l.Pairwise _))

/-- Weak sortedness (ties allowed), as the claim literally states it. -/
def HashSortedLe (l : List IndexDBItem) : Prop :=
  l.Pairwise fun a b => a.hash ≤ b.hash

instance : DecidablePred HashSortedLe := fun l =>
  inferInstanceAs (Decidable (l.Pairwise _))

theorem tupleMatch_hash {r item : IndexDBItem} (h : tupleMatch r item = true) :
    r.hash = item.hash := by
  simp only [tupleMatch, Bool.and_eq_true, beq_iff_eq] at h
  exact h.1.1.1

theorem tupleMatch_eq_false_of_lt {r item : IndexDBItem} (h : item.hash < r.hash) :
    tupleMatch r item = false := by
  cases hm : tupleMatch r item with
  | false => rfl
  | true => exact absurd (tupleMatch_hash hm ▸ h) (lt_irrefl _)

theorem tupleMatch_eq_false_of_gt {r item : IndexDBItem} (h : r.hash < item.hash) :
    tupleMatch r item = false := by
  cases hm : tupleMatch r item with
  | false => rfl
  | true => exact absurd (tupleMatch_hash hm ▸ h) (lt_irrefl _)

/-- On a strictly hash-sorted remote suffix, the inner loop decides exactly
"no equal counterpart anywhere in the suffix", and leaves as cursor the suffix
of remote rows with hash strictly above the local item's. -/
theorem skipRemote_eq (item : IndexDBItem) (rem : List IndexDBItem)
    (hs : HashSorted rem) :
    skipRemote item rem =
      (!(rem.any fun r => tupleMatch r item),
        rem.filter fun r => item.hash < r.hash) := by
  induction rem with
  | nil => simp [skipRemote]
  | cons r rs ih =>
    obtain ⟨hhd, htl⟩ := List.pairwise_cons.mp hs
    by_cases h1 : item.hash < r.hash
    · have hall : ∀ x ∈ r :: rs, tupleMatch x item = false := by
        intro x hx
        rcases List.mem_cons.mp hx with hx | hx
        · exact hx ▸ tupleMatch_eq_false_of_lt h1
        · exact tupleMatch_eq_false_of_lt (lt_trans h1 (hhd x hx))
      have hfilt : ∀ x ∈ r :: rs, item.hash < x.hash := by
        intro x hx
        rcases List.mem_cons.mp hx with hx | hx
        · exact hx ▸ h1
        · exact lt_trans h1 (hhd x hx)
      rw [skipRemote, if_pos h1,
        List.any_eq_false.mpr fun x hx => by simp [hall x hx],
        List.filter_eq_self.mpr fun x hx => decide_eq_true (hfilt x hx)]
      rfl
    · by_cases h2 : r.hash < item.hash
      · have hfc : (r :: rs).filter (fun x => decide (item.hash < x.hash)) =
            rs.filter (fun x => decide (item.hash < x.hash)) := by
          rw [List.filter_cons, decide_eq_false h1]
          rfl
        rw [skipRemote, if_neg h1, if_pos h2, ih htl, hfc,
          List.any_cons, tupleMatch_eq_false_of_gt h2, Bool.false_or]
      · have heq : r.hash = item.hash := le_antisymm (not_lt.mp h1) (not_lt.mp h2)
        have hall : ∀ x ∈ rs, tupleMatch x item = false := fun x hx =>
          tupleMatch_eq_false_of_lt (heq ▸ hhd x hx)
        have hfilt : ∀ x ∈ rs, item.hash < x.hash := fun x hx => heq ▸ hhd x hx
        have hfc : (r :: rs).filter (fun x => decide (item.hash < x.hash)) = rs := by
          rw [List.filter_cons, decide_eq_false h1]
          exact List.filter_eq_self.mpr fun x hx => decide_eq_true (hfilt x hx)
        rw [skipRemote, if_neg h1, if_neg h2, hfc, List.any_cons,
          List.any_eq_false.mpr fun x hx => by simp [hall x hx], Bool.or_false]

/-- Dropping remote rows with hash at most `cut.hash` does not change whether a
counterpart of a later local item (of strictly larger hash) exists. -/
theorem any_tupleMatch_filter (cut item : IndexDBItem) (rem : List IndexDBItem)
    (h : cut.hash < item.hash) :
    ((rem.filter fun r => cut.hash < r.hash).any fun r => tupleMatch r item) =
      (rem.any fun r => tupleMatch r item) := by
  induction rem with
  | nil => rfl
  | cons r rs ih =>
    by_cases hr : cut.hash < r.hash
    · have hfc : (r :: rs).filter (fun x => decide (cut.hash < x.hash)) =
          r :: rs.filter (fun x => decide (cut.hash < x.hash)) := by
        rw [List.filter_cons, decide_eq_true hr]
        rfl
      rw [hfc, List.any_cons, List.any_cons, ih]
    · have hm : tupleMatch r item = false := by
        cases hm : tupleMatch r item with
        | false => rfl
        | true => exact absurd (tupleMatch_hash hm ▸ h) hr
      have hfc : (r :: rs).filter (fun x => decide (cut.hash < x.hash)) =
          rs.filter (fun x => decide (cut.hash < x.hash)) := by
        rw [List.filter_cons, decide_eq_false hr]
        rfl
      rw [hfc, List.any_cons, hm, Bool.false_or, ih]

/-- Merge-join equivalence: on strictly hash-sorted local and remote lists the
loop emits exactly the non-nursery local items with no equal tuple counterpart
on the remote. -/
theorem getObjectsToReplicate_eq_filter (locals remotes : List IndexDBItem)
    (hL : HashSorted locals) (hR : HashSorted remotes) :
    getObjectsToReplicate locals remotes = replicateSpecFilter locals remotes := by
  induction locals generalizing remotes with
  | nil => simp [getObjectsToReplicate, replicateSpecFilter]
  | cons item items ih =>
    obtain ⟨hLhd, hLtl⟩ := List.pairwise_cons.mp hL
    by_cases hn : item.nursery
    · rw [getObjectsToReplicate, if_pos hn, ih remotes hLtl hR]
      rw [replicateSpecFilter, replicateSpecFilter, List.filter_cons]
      simp [hn]
    · have hrec : getObjectsToReplicate items
          (remotes.filter fun r => item.hash < r.hash) =
          replicateSpecFilter items remotes := by
        rw [ih _ hLtl (show HashSorted _ from List.Pairwise.filter _ hR),
          replicateSpecFilter, replicateSpecFilter]
        refine List.filter_congr fun it2 hit2 => ?_
        rw [any_tupleMatch_filter item it2 remotes (hLhd it2 hit2)]
      rw [getObjectsToReplicate, if_neg hn]
      simp only [skipRemote_eq item remotes hR]
      cases hsend : remotes.any fun r => tupleMatch r item with
      | true =>
        simp only [Bool.not_true, if_false, hrec]
        rw [replicateSpecFilter, replicateSpecFilter, List.filter_cons]
        simp [hsend]
      | false =>
        simp only [Bool.not_false, if_true, hrec]
        rw [replicateSpecFilter, replicateSpecFilter, List.filter_cons]
        simp [hsend, hn]

/-! ## `repObject.Stabilize` and friends (repobj.go 119-347).

Peer HTTP calls and IndexDB mutations are effects; the embedding supplies the
peer responses through `StabEnv` and returns the trace of requests issued and
database operations applied, plus the Go function's error result.  The ring
(`GetNodes`, `GetJobNodes`, `ReplicaCount`, `PartitionForHash`) is an external
collaborator and its answers for the object's partition are part of the
environment; `PartitionForHash` is modelled total. -/

/-- A ring device, with the fields `repObject` reads: `Id` (for `GetJobNodes`)
and the `Ip`/`Port`/`Device` triple used to recognise the local device. -/
structure Node where
  id : Nat
  ip : String
  port : Nat
  device : String
deriving DecidableEq, Repr

/-- `node.Ip == dev.Ip && node.Port == dev.Port && node.Device == dev.Device`,
the local-device test used by `isStable`, `stabilizeDelete` and
`restabilize`. -/
def isLocalNode (dev n : Node) : Bool :=
  n.ip == dev.ip && n.port == dev.port && n.device == dev.device

/-- Response to a peer HTTP request: `none` models a transport error
(`client.Do` returning non-nil error), `some st` a reply with status `st` and,
for HEAD lookups, the `X-Timestamp` response header (empty string when the
header is absent). -/
structure PeerResp where
  status : Nat
  xTimestamp : String
deriving DecidableEq, Repr

/-- The environment of one `Stabilize` call: everything the surrounding system
answers during the call. -/
structure StabEnv where
  partition : Nat
  nodes : List Node
  replicaCount : Nat
  isHandoff : Bool
  headResp : Node → Option PeerResp
  reqResp : Node → Option Nat
deriving Inhabited

/-- The in-memory object: its IndexDB row plus decoded metadata (a Go
`map[string]string`; indexing a missing key yields `""`). -/
structure RepObject where
  item : IndexDBItem
  metadata : List (String × String)
deriving DecidableEq, Repr

/-- Go map indexing: value for the key, `""` when absent. -/
def metaGet (m : List (String × String)) (k : String) : String :=
  ((m.find? fun p => p.1 == k).map Prod.snd).getD ""

/-- Go's two-result map lookup `_, ok := m[k]`. -/
def metaHas (m : List (String × String)) (k : String) : Bool :=
  (m.find? fun p => p.1 == k).isSome

/-- One peer agrees during `isStable`: transport succeeded, 2xx, and the
`X-Timestamp` header is nonempty and identical to the local object's
`metadata["X-Timestamp"]` string. -/
def headAgrees (env : StabEnv) (ro : RepObject) (n : Node) : Bool :=
  match env.headResp n with
  | none => false
  | some r =>
    r.status / 100 == 2 && r.xTimestamp != "" &&
      r.xTimestamp == metaGet ro.metadata "X-Timestamp"

/-- `goodNodes` accumulated by the `isStable` loop: the local device counts
itself, every other node counts iff it agrees. -/
def goodNodes (env : StabEnv) (dev : Node) (ro : RepObject) : Nat :=
  env.nodes.countP fun n => isLocalNode dev n || headAgrees env ro n

/-- `notFoundNodes` accumulated by the `isStable` loop, in ring order. -/
def notFoundNodes (env : StabEnv) (dev : Node) (ro : RepObject) : List Node :=
  env.nodes.filter fun n => !(isLocalNode dev n || headAgrees env ro n)

/-- An IndexDB mutation applied during stabilization. -/
inductive DbOp where
  | setStabilized (hash : Nat) (shard : Nat) (timestamp : Int) (nursery : Bool)
  | remove (hash : Nat) (shard : Nat) (timestamp : Int) (nursery : Bool)
      (metahash : String)
deriving DecidableEq, Repr

/-- One peer HTTP request issued during stabilization. -/
structure PeerReq where
  method : String
  target : Node
deriving DecidableEq, Repr

/-- The observable outcome of one `Stabilize` (or `Replicate`) call: the peer
requests issued, the IndexDB operations applied, and the returned error
(`none` = Go `nil`). -/
structure StabOutcome where
  requests : List PeerReq
  dbOps : List DbOp
  err : Option String
deriving DecidableEq, Repr

/-- The HEAD point lookups `isStable` sends to every non-local node, in ring
order. -/
def headRequests (env : StabEnv) (dev : Node) : List PeerReq :=
  (env.nodes.filter fun n => !isLocalNode dev n).map fun n => ⟨"HEAD", n⟩

/-- `repObject.Replicate` (repobj.go 313-347): PUT the object to the target;
2xx or 409 succeed; on success, when the source device is a handoff for the
partition, the local row is hard-removed.  (The file open of `ro.Path` is
assumed to succeed; its failure issues no request and no db op.) -/
def repReplicate (env : StabEnv) (ro : RepObject) (target : Node) : StabOutcome :=
  let req : PeerReq := ⟨"PUT", target⟩
  match env.reqResp target with
  | none => ⟨[req], [], some "error syncing obj"⟩
  | some status =>
    if status / 100 == 2 || status == 409 then
      if env.isHandoff then
        ⟨[req], [DbOp.remove ro.item.hash ro.item.shard ro.item.timestamp
          ro.item.nursery ro.item.metahash], none⟩
      else ⟨[req], [], none⟩
    else ⟨[req], [], some "bad status code syncing obj"⟩

/-- The `for _, notFoundNode := range notFoundNodes` loop of `Stabilize`:
replicate to each, collecting errors. -/
def replicateLoop (env : StabEnv) (ro : RepObject) :
    List Node → List PeerReq × List DbOp × List String
  | [] => ([], [], [])
  | n :: ns =>
    let o := repReplicate env ro n
    let rest := replicateLoop env ro ns
    (o.requests ++ rest.1, o.dbOps ++ rest.2.1,
      (match o.err with | none => [] | some e => [e]) ++ rest.2.2)

/-- A DELETE acknowledgement in `stabilizeDelete`: 2xx, 409 or 404. -/
def deleteAck (status : Nat) : Bool :=
  status / 100 == 2 || status == 409 || status == 404

/-- `repObject.stabilizeDelete` (repobj.go 191-228): DELETE to every non-local
node; requires `successes + 1 == len(nodes)`; on success the local tombstone
row is removed. -/
def stabilizeDelete (env : StabEnv) (dev : Node) (ro : RepObject) : StabOutcome :=
  let others := env.nodes.filter fun n => !isLocalNode dev n
  let reqs := others.map fun n => (⟨"DELETE", n⟩ : PeerReq)
  let successes := others.countP fun n =>
    match env.reqResp n with
    | none => false
    | some st => deleteAck st
  if successes + 1 != env.nodes.length then
    ⟨reqs, [], some "could not stabilize DELETE to all primaries"⟩
  else
    ⟨reqs, [DbOp.remove ro.item.hash ro.item.shard ro.item.timestamp
      ro.item.nursery ro.item.metahash], none⟩

/-- `repObject.restabilize` (repobj.go 230-269): POST the metadata to every
non-local node; 2xx or 409 count; requires `successes == len(nodes) - 1`; on
success `SetStabilized(hash, shard, timestamp, false)` clears the nursery
flag. -/
def restabilize (env : StabEnv) (dev : Node) (ro : RepObject) : StabOutcome :=
  let others := env.nodes.filter fun n => !isLocalNode dev n
  let reqs := others.map fun n => (⟨"POST", n⟩ : PeerReq)
  let successes := others.countP fun n =>
    match env.reqResp n with
    | none => false
    | some st => st / 100 == 2 || st == 409
  if successes != env.nodes.length - 1 then
    ⟨reqs, [], some "could not restabilize all primaries"⟩
  else
    ⟨reqs, [DbOp.setStabilized ro.item.hash ro.item.shard ro.item.timestamp false],
      none⟩

/-- `repObject.Stabilize` (repobj.go 271-311).  Dispatch order follows the
source: restabilize first, then the non-nursery no-op, then deletion, then the
quorum check with promote / hard-remove / replicate-and-retry. -/
def Stabilize (env : StabEnv) (dev : Node) (ro : RepObject) : StabOutcome :=
  if ro.item.restabilize then restabilize env dev ro
  else if !ro.item.nursery then ⟨[], [], none⟩
  else if ro.item.deletion then stabilizeDelete env dev ro
  else
    let stable := goodNodes env dev ro == env.replicaCount
    let nf := notFoundNodes env dev ro
    let heads := headRequests env dev
    if stable then
      if env.isHandoff then
        ⟨heads, [DbOp.remove ro.item.hash ro.item.shard ro.item.timestamp
          ro.item.nursery ro.item.metahash], none⟩
      else
        ⟨heads, [DbOp.setStabilized ro.item.hash roShard ro.item.timestamp true],
          none⟩
    else
      let rep := replicateLoop env ro nf
      ⟨heads ++ rep.1, rep.2.1,
        some (match rep.2.2 with
          | [] => "could not stabilize: fixed nodes"
          | e :: _ => e)⟩

/-! ## `repObject.commit` and its wrappers (repobj.go 119-145). -/

/-- The arguments `repObject.commit` passes to `IndexDB.Commit` when it gets
that far. -/
structure CommitCall where
  hash : Nat
  shard : Nat
  timestamp : Int
  method : String
  nursery : Bool
deriving DecidableEq, Repr

/-- `repObject.commit(metadata, method, nursery)`: requires the `X-Timestamp`
metadata key, then parses it (`parseDate` is the external date parser,
`none` = parse error), then invokes `IndexDB.Commit`.  `.ok` carries the
arguments of the IndexDB call; `.error` paths never reach IndexDB. -/
def repCommit (parseDate : String → Option Int) (ro : RepObject)
    (metadata : List (String × String)) (method : String) (nursery : Bool) :
    Except String CommitCall :=
  if !(metaHas metadata "X-Timestamp") then
    .error "no timestamp in metadata"
  else
    match parseDate (metaGet metadata "X-Timestamp") with
    | none => .error "parse error"
    | some ts => .ok ⟨ro.item.hash, roShard, ts, method, nursery⟩

/-- `repObject.Commit`: method PUT, nursery true. -/
def repCommitPut (parseDate : String → Option Int) (ro : RepObject)
    (metadata : List (String × String)) : Except String CommitCall :=
  repCommit parseDate ro metadata "PUT" true

/-- `repObject.Delete`: method DELETE, nursery true. -/
def repDelete (parseDate : String → Option Int) (ro : RepObject)
    (metadata : List (String × String)) : Except String CommitCall :=
  repCommit parseDate ro metadata "DELETE" true

/-- `repObject.CommitMetadata`: method POST, nursery from the current row. -/
def repCommitMetadata (parseDate : String → Option Int) (ro : RepObject)
    (metadata : List (String × String)) : Except String CommitCall :=
  repCommit parseDate ro metadata "POST" ro.item.nursery

/-! ## `IndexDB.Commit` timestamp rule.

Modelled from the spec: the IndexDB implementation is not among the provided
sources (only its callers are).  Spec §4.1: `commit` "atomically installs
bytes ... and metadata; rejects (conflict, no mutation) if the stored
timestamp for that key is ≥ the incoming one"; §3: "`Timestamp` is
monotonically non-decreasing per key — a write with `Timestamp ≤` the stored
value is a no-op/conflict, never applied". -/

/-- One stored row of the modelled IndexDB table, keyed by `(hash, shard)`. -/
structure DbRow where
  timestamp : Int
  method : String
  nursery : Bool
deriving DecidableEq, Repr

/-- Modelled from the spec: the IndexDB table as an association list keyed by
`(hash, shard)`. -/
def DbState : Type := List ((Nat × Nat) × DbRow)

/-- Lookup of the stored row for a key. -/
def dbLookup (db : DbState) (k : Nat × Nat) : Option DbRow :=
  ((db.find? fun p => p.1 == k).map Prod.snd)

/-- Modelled from the spec: `IndexDB.Commit`.  Returns the new state and
whether the write was applied; a stored timestamp `≥` the incoming one is a
conflict and leaves the state unchanged. -/
def dbCommit (db : DbState) (hash : Nat) (shard : Nat) (ts : Int)
    (method : String) (nursery : Bool) : DbState × Bool :=
  match dbLookup db (hash, shard) with
  | some row =>
    if ts ≤ row.timestamp then (db, false)
    else (((hash, shard), DbRow.mk ts method nursery) ::
      db.filter fun p => !(p.1 == (hash, shard)), true)
  | none => (((hash, shard), DbRow.mk ts method nursery) :: db, true)

/-! ## Engine `New` integrity checks (repobjeng.go 139-180 and the ec engine's
`New`). -/

/-- Environment of one engine `New` call: the IndexDB row found for the hash
(`none` = no row), the `os.Stat` size of the row's path (`none` = stat error),
the parse of `metadata["Content-Length"]` (`none` = parse error) and whether
the metadata blob decoded. -/
structure NewEnv where
  lookup : Option IndexDBItem
  statSize : Option Int
  contentLength : Option Int
  metaOk : Bool

/-- Result of an engine `New`: whether `Quarantine` fired, and the returned
error (`none` = the object is handed back). -/
structure NewOutcome where
  quarantined : Bool
  err : Option String
deriving DecidableEq, Repr

/-- `repEngine.New` (repobjeng.go 139-180), integrity-check part: for an
existing non-deletion row, a stat failure, an unparsable `Content-Length`, or
a size different from `Content-Length` quarantines and fails. -/
def repNew (env : NewEnv) : NewOutcome :=
  match env.lookup with
  | none => ⟨false, none⟩
  | some item =>
    if !env.metaOk then ⟨false, some "Error parsing metadata"⟩
    else if item.deletion then ⟨false, none⟩
    else
      match env.statSize with
      | none => ⟨true, some "stat error"⟩
      | some sz =>
        match env.contentLength with
        | none => ⟨true, some "Unable to parse content-length"⟩
        | some cl =>
          if sz != cl then ⟨true, some "File size does not match content-length"⟩
          else ⟨false, none⟩

/-- `ecEngine.New`, integrity-check part: nursery rows must match the full
`Content-Length`; stable rows must match `ecShardLength(contentLength,
dataShards)`.  `ecShardLength` itself is defined in an ec source file not
provided here, so it is passed in as the opaque shard-length function (spec §1
treats the erasure-coding math as opaque). -/
def ecNew (ecShardLength : Int → Nat → Int) (dataShards : Nat) (env : NewEnv) :
    NewOutcome :=
  match env.lookup with
  | none => ⟨false, none⟩
  | some item =>
    if !env.metaOk then ⟨false, some "Error parsing metadata"⟩
    else if item.deletion then ⟨false, none⟩
    else
      match env.statSize with
      | none => ⟨true, some "stat error"⟩
      | some sz =>
        match env.contentLength with
        | none => ⟨true, some "Unable to parse content-length"⟩
        | some cl =>
          if item.nursery && sz != cl then
            ⟨true, some "File size does not match content-length"⟩
          else if !item.nursery && sz != ecShardLength cl dataShards then
            ⟨true, some "Shard size does not align with content-length"⟩
          else ⟨false, none⟩

/-! ## Replication job planner: `getPartMoveJobs`.

Modelled from the spec: the planner source is not among the provided files
(only its test is).  Spec §4.4: "for every partition, diffs the old vs. new
ordered device-assignment lists; for each slot whose assigned device changed,
emits one `PriorityRepJob{partition, from=old, to=new}`; partitions already
queued (in `excluded`) are skipped".  A ring is modelled as the list of
ordered device-assignment lists, indexed by partition; devices by id. -/

structure PriorityRepJob where
  partition : Nat
  fromDevice : Nat
  toDevice : Nat
  policy : Nat
deriving DecidableEq, Repr

/-- Jobs for one partition `p`: slotwise diff of the two assignment lists. -/
def partSlotJobs (p pol : Nat) : List Nat → List Nat → List PriorityRepJob
  | od :: os, nd :: ns =>
    (if od != nd then [⟨p, od, nd, pol⟩] else []) ++ partSlotJobs p pol os ns
  | _, _ => []

/-- The partition loop, carrying the current partition index. -/
def partMoveJobsFrom (p : Nat) (excluded : List Nat) (pol : Nat) :
    List (List Nat) → List (List Nat) → List PriorityRepJob
  | o :: os, n :: ns =>
    (if excluded.contains p then [] else partSlotJobs p pol o n) ++
      partMoveJobsFrom (p + 1) excluded pol os ns
  | _, _ => []

/-- Modelled from the spec: `getPartMoveJobs(oldRing, newRing, excluded,
policy)`. -/
def getPartMoveJobs (oldRing newRing : List (List Nat)) (excluded : List Nat)
    (pol : Nat) : List PriorityRepJob :=
  partMoveJobsFrom 0 excluded pol oldRing newRing

/-! ## `getObjectsToStabilize` (repobjeng.go 275-310 and the ec engine's
version).

Both expire tombstones and list the nursery candidates; the model starts from
the listed candidates (`ListObjectsToStabilize` output, in IndexDB order) and
describes the emitted sequence, assuming no cancellation.  Items whose
metadata blob fails to decode are skipped; `metaOk` stands for that decode. -/

/-- The candidates surviving the metadata decode, in listed order. -/
def stabilizeCandidates (metaOk : IndexDBItem → Bool)
    (items : List IndexDBItem) : List IndexDBItem :=
  items.filter metaOk

/-- Swap of two positions of a list (the `objs[j], objs[i] = objs[i], objs[j]`
of the ec shuffle); out-of-range indices leave the list unchanged. -/
def listSwap {α : Type} (l : List α) (i j : Nat) : List α :=
  match l[i]?, l[j]? with
  | some a, some b => (l.set i b).set j a
  | _, _ => l

/-- The ec engine's Fisher-Yates loop
`for i := len(objs) - 1; i > 0; i--: j := rand.Intn(i + 1); swap(j, i)`,
counting `i` down; `rnd i % (i + 1)` models `rand.Intn(i+1)`'s range. -/
def fyGo {α : Type} (rnd : Nat → Nat) : List α → Nat → List α
  | l, 0 => l
  | l, i + 1 => fyGo rnd (listSwap l (rnd (i + 1) % (i + 2)) (i + 1)) i

/-- The ec engine's shuffle of the candidate slice. -/
def fyShuffle {α : Type} (rnd : Nat → Nat) (l : List α) : List α :=
  fyGo rnd l (l.length - 1)

/-- `repEngine.getObjectsToStabilize`: emits the candidates in listed order
(there is no shuffle in the replication engine's loop). -/
def repGetObjectsToStabilize (metaOk : IndexDBItem → Bool)
    (items : List IndexDBItem) : List IndexDBItem :=
  stabilizeCandidates metaOk items

/-- `ecEngine.getObjectsToStabilize`: collects the decodable candidates, then
shuffles them before emitting. -/
def ecGetObjectsToStabilize (metaOk : IndexDBItem → Bool) (rnd : Nat → Nat)
    (items : List IndexDBItem) : List IndexDBItem :=
  fyShuffle rnd (stabilizeCandidates metaOk items)

/-! ## Shared helper lemmas. -/

theorem countP_add_countP_not {α : Type} (p : α → Bool) (l : List α) :
    l.countP p + l.countP (fun a => !p a) = l.length := by
  induction l with
  | nil => rfl
  | cons x xs ih =>
    rw [List.countP_cons, List.countP_cons, List.length_cons]
    cases hx : p x <;> simp [hx] <;> omega

theorem headRequests_no_put (env : StabEnv) (dev : Node) :
    (headRequests env dev).filter (fun r => r.method == "PUT") = [] := by
  rw [List.filter_eq_nil_iff]
  intro r hr
  rw [headRequests, List.mem_map] at hr
  obtain ⟨n, _, rfl⟩ := hr
  simp

/-- Every node of the environment satisfying "local or agreeing" makes the
`isStable` count full. -/
theorem goodNodes_eq_length (env : StabEnv) (dev : Node) (ro : RepObject)
    (hAgree : ∀ n ∈ env.nodes, isLocalNode dev n = false → headAgrees env ro n = true) :
    goodNodes env dev ro = env.nodes.length := by
  rw [goodNodes, List.countP_eq_length]
  intro n hn
  cases hl : isLocalNode dev n with
  | true => simp [hl]
  | false => simp [hl, hAgree n hn hl]

/-! ## Claim theorems. -/

/-- C1: for every key `(hash, shard)`, a `commit` with a timestamp less than
or equal to the stored one is rejected as a conflict and leaves the database
state unchanged; only a strictly greater timestamp mutates state.
(`IndexDB.Commit` modelled from the spec; its implementation is not among the
provided sources.) -/
theorem claim_C1_dbCommit_monotonic (db : DbState) (hash : Nat) (shard : Nat)
    (ts : Int) (method : String) (nursery : Bool) (row : DbRow)
    (hrow : dbLookup db (hash, shard) = some row) :
    (ts ≤ row.timestamp →
      dbCommit db hash shard ts method nursery = (db, false)) ∧
    (row.timestamp < ts →
      (dbCommit db hash shard ts method nursery).2 = true ∧
      dbLookup (dbCommit db hash shard ts method nursery).1 (hash, shard) =
        some ⟨ts, method, nursery⟩) := by
  constructor
  · intro hle
    simp only [dbCommit, hrow]
    rw [if_pos hle]
  · intro hlt
    simp only [dbCommit, hrow]
    rw [if_neg (not_le.mpr hlt)]
    exact ⟨rfl, by simp [dbLookup]⟩

theorem claim_C1_dbCommit_monotonic_witness :
    dbLookup [((1, 0), DbRow.mk 5 "PUT" true)] (1, 0) = some ⟨5, "PUT", true⟩ ∧
    ((3 : Int) ≤ 5 →
      dbCommit [((1, 0), DbRow.mk 5 "PUT" true)] 1 0 3 "PUT" true =
        ([((1, 0), DbRow.mk 5 "PUT" true)], false)) ∧
    ((5 : Int) < 7 →
      (dbCommit [((1, 0), DbRow.mk 5 "PUT" true)] 1 0 7 "DELETE" true).2 = true ∧
      dbLookup (dbCommit [((1, 0), DbRow.mk 5 "PUT" true)] 1 0 7 "DELETE" true).1
        (1, 0) = some ⟨7, "DELETE", true⟩) :=
  ⟨by decide,
    (claim_C1_dbCommit_monotonic [((1, 0), DbRow.mk 5 "PUT" true)] 1 0 3 "PUT"
      true ⟨5, "PUT", true⟩ (by decide)).1,
    (claim_C1_dbCommit_monotonic [((1, 0), DbRow.mk 5 "PUT" true)] 1 0 7 "DELETE"
      true ⟨5, "PUT", true⟩ (by decide)).2⟩

/-- C7: a metadata map without the `X-Timestamp` key makes `Commit`, `Delete`
and `CommitMetadata` (all sharing `repObject.commit`) fail with a validation
error before any IndexDB operation (no `CommitCall` is produced). -/
theorem claim_C7_commit_requires_timestamp (parseDate : String → Option Int)
    (ro : RepObject) (metadata : List (String × String))
    (h : metaHas metadata "X-Timestamp" = false) :
    repCommitPut parseDate ro metadata = .error "no timestamp in metadata" ∧
    repDelete parseDate ro metadata = .error "no timestamp in metadata" ∧
    repCommitMetadata parseDate ro metadata = .error "no timestamp in metadata" := by
  refine ⟨?_, ?_, ?_⟩
  · rw [repCommitPut, repCommit, if_pos (by simp [h])]
  · rw [repDelete, repCommit, if_pos (by simp [h])]
  · rw [repCommitMetadata, repCommit, if_pos (by simp [h])]

theorem claim_C7_commit_requires_timestamp_witness :
    metaHas [("Content-Length", "7")] "X-Timestamp" = false ∧
    repCommitPut (fun _ => none) ⟨⟨1, 0, 1, true, false, "", "", "", false⟩, []⟩
      [("Content-Length", "7")] = .error "no timestamp in metadata" :=
  ⟨by decide,
    (claim_C7_commit_requires_timestamp (fun _ => none)
      ⟨⟨1, 0, 1, true, false, "", "", "", false⟩, []⟩
      [("Content-Length", "7")] (by decide)).1⟩

/-- C10: `Stabilize` on an object with the nursery and restabilize flags both
clear returns nil, issues no peer request and applies no IndexDB operation. -/
theorem claim_C10_stabilize_stable_noop (env : StabEnv) (dev : Node)
    (ro : RepObject) (hN : ro.item.nursery = false)
    (hR : ro.item.restabilize = false) :
    Stabilize env dev ro = ⟨[], [], none⟩ := by
  rw [Stabilize, if_neg (by simp [hR]), if_pos (by simp [hN])]

theorem claim_C10_stabilize_stable_noop_witness :
    Stabilize ⟨0, [⟨1, "10.0.0.1", 6000, "d1"⟩], 3, false, fun _ => none, fun _ => none⟩
      ⟨0, "10.0.0.0", 6000, "d0"⟩
      ⟨⟨1, 0, 1, false, false, "m", "", "/p", false⟩, []⟩ = ⟨[], [], none⟩ :=
  claim_C10_stabilize_stable_noop _ _ _ rfl rfl

/-- C2: for a nursery, non-deletion, non-restabilize object, when every other
ring node for the partition agrees on the `X-Timestamp` string and the count
(the local device counting itself) reaches the replica count, `Stabilize`
issues zero replicate (PUT) calls and either clears the nursery flag
(`SetStabilized`) or, when the local device is a handoff for the partition,
hard-removes the local row instead. -/
theorem claim_C2_stabilize_promote (env : StabEnv) (dev : Node) (ro : RepObject)
    (hN : ro.item.nursery = true) (hD : ro.item.deletion = false)
    (hR : ro.item.restabilize = false)
    (hAgree : ∀ n ∈ env.nodes, isLocalNode dev n = false →
      headAgrees env ro n = true)
    (hCount : env.nodes.length = env.replicaCount) :
    ((Stabilize env dev ro).requests.filter fun r => r.method == "PUT") = [] ∧
    (Stabilize env dev ro).err = none ∧
    (Stabilize env dev ro).dbOps =
      (if env.isHandoff then
        [DbOp.remove ro.item.hash ro.item.shard ro.item.timestamp
          ro.item.nursery ro.item.metahash]
      else
        [DbOp.setStabilized ro.item.hash roShard ro.item.timestamp true]) := by
  have hgood : (goodNodes env dev ro == env.replicaCount) = true := by
    rw [goodNodes_eq_length env dev ro hAgree, hCount]
    exact beq_self_eq_true _
  rw [Stabilize, if_neg (by simp [hR]), if_neg (by simp [hN]),
    if_neg (by simp [hD])]
  simp only [hgood, if_true]
  cases hh : env.isHandoff with
  | true => exact ⟨headRequests_no_put env dev, rfl, rfl⟩
  | false => exact ⟨headRequests_no_put env dev, rfl, rfl⟩

theorem claim_C2_stabilize_promote_witness :
    ((Stabilize
        ⟨7, [⟨0, "10.0.0.0", 1, "d0"⟩, ⟨1, "10.0.0.1", 1, "d1"⟩,
          ⟨2, "10.0.0.2", 1, "d2"⟩], 3, false,
          fun _ => some ⟨200, "ts1"⟩, fun _ => none⟩
        ⟨0, "10.0.0.0", 1, "d0"⟩
        ⟨⟨1, 0, 5, true, false, "mh", "", "/p", false⟩,
          [("X-Timestamp", "ts1")]⟩).requests.filter
      fun r => r.method == "PUT") = [] ∧
    (Stabilize
        ⟨7, [⟨0, "10.0.0.0", 1, "d0"⟩, ⟨1, "10.0.0.1", 1, "d1"⟩,
          ⟨2, "10.0.0.2", 1, "d2"⟩], 3, false,
          fun _ => some ⟨200, "ts1"⟩, fun _ => none⟩
        ⟨0, "10.0.0.0", 1, "d0"⟩
        ⟨⟨1, 0, 5, true, false, "mh", "", "/p", false⟩,
          [("X-Timestamp", "ts1")]⟩).err = none ∧
    (Stabilize
        ⟨7, [⟨0, "10.0.0.0", 1, "d0"⟩, ⟨1, "10.0.0.1", 1, "d1"⟩,
          ⟨2, "10.0.0.2", 1, "d2"⟩], 3, false,
          fun _ => some ⟨200, "ts1"⟩, fun _ => none⟩
        ⟨0, "10.0.0.0", 1, "d0"⟩
        ⟨⟨1, 0, 5, true, false, "mh", "", "/p", false⟩,
          [("X-Timestamp", "ts1")]⟩).dbOps =
      [DbOp.setStabilized 1 roShard 5 true] :=
  claim_C2_stabilize_promote _ _ _ rfl rfl rfl (by decide) (by decide)

/-- C6: an engine `New` that finds a non-deletion row whose on-disk size
disagrees with the declared length — the full `Content-Length` for replicated
objects and erasure-coded nursery copies, `ecShardLength(contentLength,
dataShards)` for stable erasure-coded shards — quarantines the object and
fails immediately. -/
theorem claim_C6_new_quarantines_on_size_mismatch
    (ecShardLength : Int → Nat → Int) (dataShards : Nat) (env : NewEnv)
    (item : IndexDBItem) (sz cl : Int)
    (hl : env.lookup = some item) (hm : env.metaOk = true)
    (hd : item.deletion = false) (hs : env.statSize = some sz)
    (hc : env.contentLength = some cl) :
    (sz ≠ cl →
      repNew env = ⟨true, some "File size does not match content-length"⟩) ∧
    (item.nursery = true → sz ≠ cl →
      ecNew ecShardLength dataShards env =
        ⟨true, some "File size does not match content-length"⟩) ∧
    (item.nursery = false → sz ≠ ecShardLength cl dataShards →
      ecNew ecShardLength dataShards env =
        ⟨true, some "Shard size does not align with content-length"⟩) := by
  refine ⟨fun hne => ?_, fun hnurse hne => ?_, fun hnurse hne => ?_⟩
  · simp only [repNew, hl, hm, hd, hs, hc]
    simp [bne_iff_ne, hne]
  · simp only [ecNew, hl, hm, hd, hs, hc]
    simp [bne_iff_ne, hnurse, hne]
  · simp only [ecNew, hl, hm, hd, hs, hc]
    simp [bne_iff_ne, hnurse, hne]

theorem claim_C6_new_quarantines_on_size_mismatch_witness :
    ((100 : Int) ≠ 50 →
      repNew ⟨some ⟨1, 0, 5, true, false, "mh", "", "/p", false⟩,
        some 100, some 50, true⟩ =
        ⟨true, some "File size does not match content-length"⟩) ∧
    (repNew ⟨some ⟨1, 0, 5, true, false, "mh", "", "/p", false⟩,
      some 100, some 50, true⟩ =
      ⟨true, some "File size does not match content-length"⟩) :=
  ⟨(claim_C6_new_quarantines_on_size_mismatch (fun cl _ => cl) 4
      ⟨some ⟨1, 0, 5, true, false, "mh", "", "/p", false⟩, some 100, some 50, true⟩
      ⟨1, 0, 5, true, false, "mh", "", "/p", false⟩ 100 50
      rfl rfl rfl rfl rfl).1,
    (claim_C6_new_quarantines_on_size_mismatch (fun cl _ => cl) 4
      ⟨some ⟨1, 0, 5, true, false, "mh", "", "/p", false⟩, some 100, some 50, true⟩
      ⟨1, 0, 5, true, false, "mh", "", "/p", false⟩ 100 50
      rfl rfl rfl rfl rfl).1 (by decide)⟩

/-- C3 counterexample: a nursery, non-deletion, non-restabilize object with
replica count 3 and exactly one disagreeing peer, where the local device is a
handoff for the partition and the replicate PUT succeeds.  `Stabilize` issues
exactly one replicate call and returns an error as the claim says, but the
local row is hard-removed (inside `Replicate`), so the nursery flag is not
left set. -/
theorem claim_C3_one_peer_counterexample :
    notFoundNodes
        ⟨7, [⟨1, "10.0.0.1", 1, "d1"⟩, ⟨2, "10.0.0.2", 1, "d2"⟩,
          ⟨3, "10.0.0.3", 1, "d3"⟩], 3, true,
          (fun n => if n.id == 3 then none else some ⟨200, "ts1"⟩),
          fun _ => some 201⟩
        ⟨0, "10.0.0.9", 1, "d9"⟩
        ⟨⟨1, 0, 5, true, false, "mh", "", "/p", false⟩,
          [("X-Timestamp", "ts1")]⟩ = [⟨3, "10.0.0.3", 1, "d3"⟩] ∧
    ((Stabilize
        ⟨7, [⟨1, "10.0.0.1", 1, "d1"⟩, ⟨2, "10.0.0.2", 1, "d2"⟩,
          ⟨3, "10.0.0.3", 1, "d3"⟩], 3, true,
          (fun n => if n.id == 3 then none else some ⟨200, "ts1"⟩),
          fun _ => some 201⟩
        ⟨0, "10.0.0.9", 1, "d9"⟩
        ⟨⟨1, 0, 5, true, false, "mh", "", "/p", false⟩,
          [("X-Timestamp", "ts1")]⟩).requests.filter
      fun r => r.method == "PUT") = [⟨"PUT", ⟨3, "10.0.0.3", 1, "d3"⟩⟩] ∧
    (Stabilize
        ⟨7, [⟨1, "10.0.0.1", 1, "d1"⟩, ⟨2, "10.0.0.2", 1, "d2"⟩,
          ⟨3, "10.0.0.3", 1, "d3"⟩], 3, true,
          (fun n => if n.id == 3 then none else some ⟨200, "ts1"⟩),
          fun _ => some 201⟩
        ⟨0, "10.0.0.9", 1, "d9"⟩
        ⟨⟨1, 0, 5, true, false, "mh", "", "/p", false⟩,
          [("X-Timestamp", "ts1")]⟩).err.isSome = true ∧
    (Stabilize
        ⟨7, [⟨1, "10.0.0.1", 1, "d1"⟩, ⟨2, "10.0.0.2", 1, "d2"⟩,
          ⟨3, "10.0.0.3", 1, "d3"⟩], 3, true,
          (fun n => if n.id == 3 then none else some ⟨200, "ts1"⟩),
          fun _ => some 201⟩
        ⟨0, "10.0.0.9", 1, "d9"⟩
        ⟨⟨1, 0, 5, true, false, "mh", "", "/p", false⟩,
          [("X-Timestamp", "ts1")]⟩).dbOps = [DbOp.remove 1 0 5 true "mh"] := by
  decide

/-- C3 (amended): for a nursery, non-deletion, non-restabilize object with
replica count 3 and exactly one disagreeing or unreachable peer, when the
local device is **not** a handoff for the partition, `Stabilize` issues
exactly one replicate call targeted at that peer, applies no IndexDB
operation (the nursery flag stays set), and returns a retryable failure.
(When the local device is a handoff, a successful replicate hard-removes the
local row — see the counterexample.) -/
theorem claim_C3_one_peer_replicates (env : StabEnv) (dev : Node)
    (ro : RepObject) (p : Node)
    (hN : ro.item.nursery = true) (hD : ro.item.deletion = false)
    (hR : ro.item.restabilize = false)
    (hRC : env.replicaCount = 3) (hLen : env.nodes.length = 3)
    (hHandoff : env.isHandoff = false)
    (hnf : notFoundNodes env dev ro = [p]) :
    ((Stabilize env dev ro).requests.filter fun r => r.method == "PUT") =
      [⟨"PUT", p⟩] ∧
    (Stabilize env dev ro).dbOps = [] ∧
    (Stabilize env dev ro).err.isSome = true := by
  have hcount : goodNodes env dev ro = 2 := by
    have h1 := countP_add_countP_not
      (fun n => isLocalNode dev n || headAgrees env ro n) env.nodes
    have h2 : env.nodes.countP
        (fun n => !(isLocalNode dev n || headAgrees env ro n)) = 1 := by
      rw [List.countP_eq_length_filter,
        show env.nodes.filter (fun n => !(isLocalNode dev n || headAgrees env ro n)) =
          notFoundNodes env dev ro from rfl, hnf]
      rfl
    rw [goodNodes]
    omega
  have hstable : (goodNodes env dev ro == env.replicaCount) = false := by
    rw [hcount, hRC]
    decide
  rw [Stabilize, if_neg (by simp [hR]), if_neg (by simp [hN]),
    if_neg (by simp [hD])]
  simp only [hstable, Bool.false_eq_true, if_false, hnf]
  cases hq : env.reqResp p with
  | none =>
    simp [replicateLoop, repReplicate, hq, List.filter_append,
      headRequests_no_put]
  | some st =>
    by_cases hok : (st / 100 == 2 || st == 409) = true
    · simp [replicateLoop, repReplicate, hq, hok, hHandoff,
        List.filter_append, headRequests_no_put]
    · simp [replicateLoop, repReplicate, hq, hok, List.filter_append,
        headRequests_no_put]

theorem claim_C3_one_peer_replicates_witness :
    ((Stabilize
        ⟨7, [⟨1, "10.0.0.1", 1, "d1"⟩, ⟨2, "10.0.0.2", 1, "d2"⟩,
          ⟨3, "10.0.0.3", 1, "d3"⟩], 3, false,
          (fun n => if n.id == 3 then none else some ⟨200, "ts1"⟩),
          fun _ => some 201⟩
        ⟨1, "10.0.0.1", 1, "d1"⟩
        ⟨⟨1, 0, 5, true, false, "mh", "", "/p", false⟩,
          [("X-Timestamp", "ts1")]⟩).requests.filter
      fun r => r.method == "PUT") = [⟨"PUT", ⟨3, "10.0.0.3", 1, "d3"⟩⟩] ∧
    (Stabilize
        ⟨7, [⟨1, "10.0.0.1", 1, "d1"⟩, ⟨2, "10.0.0.2", 1, "d2"⟩,
          ⟨3, "10.0.0.3", 1, "d3"⟩], 3, false,
          (fun n => if n.id == 3 then none else some ⟨200, "ts1"⟩),
          fun _ => some 201⟩
        ⟨1, "10.0.0.1", 1, "d1"⟩
        ⟨⟨1, 0, 5, true, false, "mh", "", "/p", false⟩,
          [("X-Timestamp", "ts1")]⟩).dbOps = [] ∧
    (Stabilize
        ⟨7, [⟨1, "10.0.0.1", 1, "d1"⟩, ⟨2, "10.0.0.2", 1, "d2"⟩,
          ⟨3, "10.0.0.3", 1, "d3"⟩], 3, false,
          (fun n => if n.id == 3 then none else some ⟨200, "ts1"⟩),
          fun _ => some 201⟩
        ⟨1, "10.0.0.1", 1, "d1"⟩
        ⟨⟨1, 0, 5, true, false, "mh", "", "/p", false⟩,
          [("X-Timestamp", "ts1")]⟩).err.isSome = true :=
  claim_C3_one_peer_replicates _ _ _ ⟨3, "10.0.0.3", 1, "d3"⟩
    rfl rfl rfl rfl rfl rfl (by decide)

/-- C4 counterexample: a nursery tombstone whose restabilize flag is also set
takes the restabilize branch (checked first in `Stabilize`), so no DELETE is
broadcast at all — the claim's unconditional "for a nursery object with the
deletion flag set" fails. -/
theorem claim_C4_delete_counterexample :
    (⟨⟨1, 0, 5, true, true, "mh", "", "/p", true⟩,
      [("X-Timestamp", "ts1")]⟩ : RepObject).item.nursery = true ∧
    (⟨⟨1, 0, 5, true, true, "mh", "", "/p", true⟩,
      [("X-Timestamp", "ts1")]⟩ : RepObject).item.deletion = true ∧
    ((Stabilize
        ⟨7, [⟨1, "10.0.0.1", 1, "d1"⟩, ⟨2, "10.0.0.2", 1, "d2"⟩,
          ⟨3, "10.0.0.3", 1, "d3"⟩], 3, false,
          (fun _ => none), fun _ => some 204⟩
        ⟨1, "10.0.0.1", 1, "d1"⟩
        ⟨⟨1, 0, 5, true, true, "mh", "", "/p", true⟩,
          [("X-Timestamp", "ts1")]⟩).requests.filter
      fun r => r.method == "DELETE") = [] ∧
    (Stabilize
        ⟨7, [⟨1, "10.0.0.1", 1, "d1"⟩, ⟨2, "10.0.0.2", 1, "d2"⟩,
          ⟨3, "10.0.0.3", 1, "d3"⟩], 3, false,
          (fun _ => none), fun _ => some 204⟩
        ⟨1, "10.0.0.1", 1, "d1"⟩
        ⟨⟨1, 0, 5, true, true, "mh", "", "/p", true⟩,
          [("X-Timestamp", "ts1")]⟩).requests =
      [⟨"POST", ⟨2, "10.0.0.2", 1, "d2"⟩⟩, ⟨"POST", ⟨3, "10.0.0.3", 1, "d3"⟩⟩] := by
  decide

/-- C4 (amended): for a nursery, **non-restabilize** object with the deletion
flag set, `Stabilize` broadcasts DELETE to every other node of the partition;
it succeeds exactly when `replicaCount - 1` acknowledgements arrive (2xx, 409
and 404 all acknowledging); on success it hard-removes the local tombstone
row, otherwise it returns an error and removes nothing. -/
theorem claim_C4_stabilize_delete (env : StabEnv) (dev : Node) (ro : RepObject)
    (hN : ro.item.nursery = true) (hD : ro.item.deletion = true)
    (hR : ro.item.restabilize = false)
    (hLen : env.nodes.length = env.replicaCount) :
    (Stabilize env dev ro).requests =
      (env.nodes.filter fun n => !isLocalNode dev n).map
        (fun n => ⟨"DELETE", n⟩) ∧
    ((Stabilize env dev ro).err = none ↔
      ((env.nodes.filter fun n => !isLocalNode dev n).countP fun n =>
          match env.reqResp n with
          | none => false
          | some st => deleteAck st) + 1 = env.replicaCount) ∧
    (Stabilize env dev ro).dbOps =
      (if ((env.nodes.filter fun n => !isLocalNode dev n).countP fun n =>
          match env.reqResp n with
          | none => false
          | some st => deleteAck st) + 1 = env.replicaCount then
        [DbOp.remove ro.item.hash ro.item.shard ro.item.timestamp
          ro.item.nursery ro.item.metahash]
      else []) := by
  rw [Stabilize, if_neg (by simp [hR]), if_neg (by simp [hN]),
    if_pos (by simp [hD]), stabilizeDelete]
  by_cases h : ((env.nodes.filter fun n => !isLocalNode dev n).countP fun n =>
      match env.reqResp n with
      | none => false
      | some st => deleteAck st) + 1 = env.replicaCount
  · have hbne : (((env.nodes.filter fun n => !isLocalNode dev n).countP fun n =>
        match env.reqResp n with
        | none => false
        | some st => deleteAck st) + 1 != env.nodes.length) = false := by
      simp [bne_iff_ne, hLen, h]
    simp only [hbne, Bool.false_eq_true, if_false, if_pos h]
    exact ⟨trivial, by simp [h], trivial⟩
  · have hbne : (((env.nodes.filter fun n => !isLocalNode dev n).countP fun n =>
        match env.reqResp n with
        | none => false
        | some st => deleteAck st) + 1 != env.nodes.length) = true := by
      simp [bne_iff_ne, hLen, h]
    simp only [hbne, if_true, if_neg h]
    exact ⟨trivial, by simp [h], trivial⟩

theorem claim_C4_stabilize_delete_witness :
    (Stabilize
        ⟨7, [⟨1, "10.0.0.1", 1, "d1"⟩, ⟨2, "10.0.0.2", 1, "d2"⟩,
          ⟨3, "10.0.0.3", 1, "d3"⟩], 3, false,
          (fun _ => none), fun n => if n.id == 2 then some 204 else some 404⟩
        ⟨1, "10.0.0.1", 1, "d1"⟩
        ⟨⟨1, 0, 5, true, true, "mh", "", "/p", false⟩,
          [("X-Timestamp", "ts1")]⟩).requests =
      [⟨"DELETE", ⟨2, "10.0.0.2", 1, "d2"⟩⟩,
        ⟨"DELETE", ⟨3, "10.0.0.3", 1, "d3"⟩⟩] ∧
    ((Stabilize
        ⟨7, [⟨1, "10.0.0.1", 1, "d1"⟩, ⟨2, "10.0.0.2", 1, "d2"⟩,
          ⟨3, "10.0.0.3", 1, "d3"⟩], 3, false,
          (fun _ => none), fun n => if n.id == 2 then some 204 else some 404⟩
        ⟨1, "10.0.0.1", 1, "d1"⟩
        ⟨⟨1, 0, 5, true, true, "mh", "", "/p", false⟩,
          [("X-Timestamp", "ts1")]⟩).err = none ↔
      (([⟨1, "10.0.0.1", 1, "d1"⟩, ⟨2, "10.0.0.2", 1, "d2"⟩,
          ⟨3, "10.0.0.3", 1, "d3"⟩].filter fun n =>
            !isLocalNode ⟨1, "10.0.0.1", 1, "d1"⟩ n).countP fun n =>
          match (if n.id == 2 then some 204 else some (404 : Nat)) with
          | none => false
          | some st => deleteAck st) + 1 = 3) ∧
    (Stabilize
        ⟨7, [⟨1, "10.0.0.1", 1, "d1"⟩, ⟨2, "10.0.0.2", 1, "d2"⟩,
          ⟨3, "10.0.0.3", 1, "d3"⟩], 3, false,
          (fun _ => none), fun n => if n.id == 2 then some 204 else some 404⟩
        ⟨1, "10.0.0.1", 1, "d1"⟩
        ⟨⟨1, 0, 5, true, true, "mh", "", "/p", false⟩,
          [("X-Timestamp", "ts1")]⟩).dbOps =
      (if (([⟨1, "10.0.0.1", 1, "d1"⟩, ⟨2, "10.0.0.2", 1, "d2"⟩,
          ⟨3, "10.0.0.3", 1, "d3"⟩].filter fun n =>
            !isLocalNode ⟨1, "10.0.0.1", 1, "d1"⟩ n).countP fun n =>
          match (if n.id == 2 then some 204 else some (404 : Nat)) with
          | none => false
          | some st => deleteAck st) + 1 = 3 then
        [DbOp.remove 1 0 5 true "mh"]
      else []) :=
  claim_C4_stabilize_delete _ _ _ rfl rfl rfl rfl

/-- C5 counterexample: with duplicate hashes the (weakly) sorted lists defeat
the merge-join — the cursor consumes only the first remote row of a hash run,
so a local item with an equal counterpart later in the run is still emitted.
Both lists here are sorted by hash as the claim requires. -/
theorem claim_C5_merge_counterexample :
    HashSortedLe [⟨1, 0, 1, false, false, "", "", "", false⟩] ∧
    HashSortedLe [⟨1, 0, 2, false, false, "", "", "", false⟩,
      ⟨1, 0, 1, false, false, "", "", "", false⟩] ∧
    getObjectsToReplicate [⟨1, 0, 1, false, false, "", "", "", false⟩]
        [⟨1, 0, 2, false, false, "", "", "", false⟩,
          ⟨1, 0, 1, false, false, "", "", "", false⟩] =
      [⟨1, 0, 1, false, false, "", "", "", false⟩] ∧
    replicateSpecFilter [⟨1, 0, 1, false, false, "", "", "", false⟩]
        [⟨1, 0, 2, false, false, "", "", "", false⟩,
          ⟨1, 0, 1, false, false, "", "", "", false⟩] = [] := by
  refine ⟨?_, ?_, ?_, ?_⟩
  · simp [HashSortedLe]
  · simp [HashSortedLe]
  · rfl
  · rfl

/-- C5 (amended): when the local and remote lists are sorted **strictly** by
hash (no duplicate hashes, as an IndexDB partition listing provides),
`GetObjectsToReplicate` emits exactly the local items with no equal
`(hash, timestamp, nursery, deletion)` counterpart in the remote list, and
never emits an item whose nursery flag is set.  (With merely weakly sorted
input the equivalence fails — see the counterexample.) -/
theorem claim_C5_merge_join (locals remotes : List IndexDBItem)
    (hL : HashSorted locals) (hR : HashSorted remotes) :
    getObjectsToReplicate locals remotes = replicateSpecFilter locals remotes ∧
    ∀ it ∈ getObjectsToReplicate locals remotes, it.nursery = false := by
  refine ⟨getObjectsToReplicate_eq_filter locals remotes hL hR, fun it hit => ?_⟩
  rw [getObjectsToReplicate_eq_filter locals remotes hL hR,
    replicateSpecFilter, List.mem_filter] at hit
  have := hit.2
  simp only [Bool.and_eq_true, Bool.not_eq_true'] at this
  exact this.1

theorem claim_C5_merge_join_witness :
    getObjectsToReplicate
        [⟨1, 0, 1, false, false, "", "", "", false⟩,
          ⟨2, 0, 2, false, false, "", "", "", false⟩,
          ⟨3, 0, 3, true, false, "", "", "", false⟩]
        [⟨2, 0, 2, false, false, "", "", "", false⟩] =
      replicateSpecFilter
        [⟨1, 0, 1, false, false, "", "", "", false⟩,
          ⟨2, 0, 2, false, false, "", "", "", false⟩,
          ⟨3, 0, 3, true, false, "", "", "", false⟩]
        [⟨2, 0, 2, false, false, "", "", "", false⟩] ∧
    ∀ it ∈ getObjectsToReplicate
        [⟨1, 0, 1, false, false, "", "", "", false⟩,
          ⟨2, 0, 2, false, false, "", "", "", false⟩,
          ⟨3, 0, 3, true, false, "", "", "", false⟩]
        [⟨2, 0, 2, false, false, "", "", "", false⟩], it.nursery = false :=
  claim_C5_merge_join _ _ (by decide) (by decide)

/-! ## Planner lemmas. -/

theorem partSlotJobs_self (p pol : Nat) : ∀ o : List Nat, partSlotJobs p pol o o = []
  | [] => rfl
  | od :: os => by
    rw [partSlotJobs, if_neg (by simp), List.nil_append]
    exact partSlotJobs_self p pol os

theorem partMoveJobsFrom_self (excl : List Nat) (pol : Nat) :
    ∀ (r : List (List Nat)) (p : Nat), partMoveJobsFrom p excl pol r r = []
  | [], _ => rfl
  | o :: os, p => by
    rw [partMoveJobsFrom]
    cases hc : excl.contains p with
    | true => simp only [if_true, List.nil_append]
              exact partMoveJobsFrom_self excl pol os (p + 1)
    | false => rw [if_neg (by simp), partSlotJobs_self, List.nil_append]
               exact partMoveJobsFrom_self excl pol os (p + 1)

theorem partSlotJobs_single (p pol : Nat) (od nd : Nat) (spost : List Nat)
    (hne : od ≠ nd) :
    ∀ spre : List Nat,
      partSlotJobs p pol (spre ++ od :: spost) (spre ++ nd :: spost) =
        [⟨p, od, nd, pol⟩]
  | [] => by
    rw [List.nil_append, List.nil_append, partSlotJobs,
      if_pos (by simp [bne_iff_ne, hne]), partSlotJobs_self, List.append_nil]
  | x :: xs => by
    rw [List.cons_append, List.cons_append, partSlotJobs, if_neg (by simp),
      List.nil_append]
    exact partSlotJobs_single p pol od nd spost hne xs

theorem partMoveJobsFrom_decomp (excl : List Nat) (pol : Nat)
    (opart npart : List Nat) (post : List (List Nat)) :
    ∀ (pre : List (List Nat)) (p0 : Nat),
      partMoveJobsFrom p0 excl pol (pre ++ opart :: post) (pre ++ npart :: post) =
        (if excl.contains (p0 + pre.length) then []
         else partSlotJobs (p0 + pre.length) pol opart npart)
  | [], p0 => by
    rw [List.nil_append, List.nil_append, partMoveJobsFrom,
      partMoveJobsFrom_self, List.append_nil, List.length_nil, Nat.add_zero]
  | q :: qs, p0 => by
    rw [List.cons_append, List.cons_append, partMoveJobsFrom]
    have hq : (if excl.contains p0 then [] else partSlotJobs p0 pol q q) =
        ([] : List PriorityRepJob) := by
      cases excl.contains p0 with
      | true => rfl
      | false => exact partSlotJobs_self p0 pol q
    rw [hq, List.nil_append, partMoveJobsFrom_decomp excl pol opart npart post qs (p0 + 1)]
    have : p0 + 1 + qs.length = p0 + (q :: qs).length := by
      rw [List.length_cons]
      omega
    rw [this]

/-- C8: `getPartMoveJobs` is a pure deterministic diff — identical rings give
zero jobs; changing one partition's slot (partition `pre.length`, old device
`od`, new device `nd`) gives exactly the one job from the old to the new
device, and gives nothing when that partition is excluded.
(`getPartMoveJobs` modelled from the spec; the planner source is not among
the provided files, only its test.) -/
theorem claim_C8_getPartMoveJobs (r pre post : List (List Nat))
    (spre spost : List Nat) (od nd : Nat) (excl : List Nat) (pol : Nat)
    (hne : od ≠ nd) :
    getPartMoveJobs r r excl pol = [] ∧
    (excl.contains pre.length = false →
      getPartMoveJobs (pre ++ (spre ++ od :: spost) :: post)
          (pre ++ (spre ++ nd :: spost) :: post) excl pol =
        [⟨pre.length, od, nd, pol⟩]) ∧
    (excl.contains pre.length = true →
      getPartMoveJobs (pre ++ (spre ++ od :: spost) :: post)
          (pre ++ (spre ++ nd :: spost) :: post) excl pol = []) := by
  refine ⟨partMoveJobsFrom_self excl pol r 0, fun hc => ?_, fun hc => ?_⟩
  · rw [getPartMoveJobs,
      partMoveJobsFrom_decomp excl pol (spre ++ od :: spost)
        (spre ++ nd :: spost) post pre 0,
      Nat.zero_add, hc]
    simp only [Bool.false_eq_true, if_false]
    exact partSlotJobs_single pre.length pol od nd spost hne spre
  · rw [getPartMoveJobs,
      partMoveJobsFrom_decomp excl pol (spre ++ od :: spost)
        (spre ++ nd :: spost) post pre 0,
      Nat.zero_add, hc, if_pos rfl]

theorem claim_C8_getPartMoveJobs_witness :
    getPartMoveJobs [[1, 2, 3], [4, 5, 6]] [[1, 2, 3], [4, 5, 6]] [] 3 = [] ∧
    (([] : List Nat).contains 1 = false →
      getPartMoveJobs [[1, 2, 3], [4, 5, 6]] [[1, 2, 3], [4, 9, 6]] [] 3 =
        [⟨1, 5, 9, 3⟩]) ∧
    (([] : List Nat).contains 1 = true →
      getPartMoveJobs [[1, 2, 3], [4, 5, 6]] [[1, 2, 3], [4, 9, 6]] [] 3 = []) :=
  claim_C8_getPartMoveJobs [[1, 2, 3], [4, 5, 6]] [[1, 2, 3]] [] [4] [6] 5 9 [] 3
    (by decide)

/-! ## Shuffle lemmas. -/

theorem cons_set_perm {α : Type} (x : α) :
    ∀ (xs : List α) (m : Nat) (b : α), xs[m]? = some b →
      (b :: xs.set m x).Perm (x :: xs)
  | [], m, b, h => by simp at h
  | y :: ys, 0, b, h => by
    have hb : y = b := by simpa using h
    rw [List.set_cons_zero, hb]
    exact List.Perm.swap x b ys
  | y :: ys, m + 1, b, h => by
    rw [List.getElem?_cons_succ] at h
    rw [List.set_cons_succ]
    exact (List.Perm.swap y b _).trans
      (((cons_set_perm x ys m b h).cons y).trans (List.Perm.swap x y ys))

theorem listSwap_perm {α : Type} :
    ∀ (l : List α) (i j : Nat), (listSwap l i j).Perm l
  | [], _, _ => by simp [listSwap]
  | x :: xs, 0, 0 => by simp [listSwap]
  | x :: xs, 0, j + 1 => by
    cases hb : xs[j]? with
    | none =>
      have hl : listSwap (x :: xs) 0 (j + 1) = x :: xs := by simp [listSwap, hb]
      rw [hl]
    | some b =>
      have hl : listSwap (x :: xs) 0 (j + 1) = b :: xs.set j x := by
        simp [listSwap, hb]
      rw [hl]
      exact cons_set_perm x xs j b hb
  | x :: xs, i + 1, 0 => by
    cases ha : xs[i]? with
    | none =>
      have hl : listSwap (x :: xs) (i + 1) 0 = x :: xs := by simp [listSwap, ha]
      rw [hl]
    | some a =>
      have hl : listSwap (x :: xs) (i + 1) 0 = a :: xs.set i x := by
        simp [listSwap, ha]
      rw [hl]
      exact cons_set_perm x xs i a ha
  | x :: xs, i + 1, j + 1 => by
    cases ha : xs[i]? with
    | none =>
      have hl : listSwap (x :: xs) (i + 1) (j + 1) = x :: xs := by
        simp [listSwap, ha]
      rw [hl]
    | some a =>
      cases hb : xs[j]? with
      | none =>
        have hl : listSwap (x :: xs) (i + 1) (j + 1) = x :: xs := by
          simp [listSwap, ha, hb]
        rw [hl]
      | some b =>
        have hl : listSwap (x :: xs) (i + 1) (j + 1) =
            x :: (xs.set i b).set j a := by
          simp [listSwap, ha, hb]
        have hxs : listSwap xs i j = (xs.set i b).set j a := by
          simp [listSwap, ha, hb]
        rw [hl]
        exact (hxs ▸ listSwap_perm xs i j).cons x

theorem fyGo_perm {α : Type} (rnd : Nat → Nat) :
    ∀ (n : Nat) (l : List α), (fyGo rnd l n).Perm l
  | 0, l => List.Perm.refl l
  | n + 1, l => by
    rw [fyGo]
    exact (fyGo_perm rnd n _).trans (listSwap_perm l _ _)

theorem fyShuffle_perm {α : Type} (rnd : Nat → Nat) (l : List α) :
    (fyShuffle rnd l).Perm l :=
  fyGo_perm rnd (l.length - 1) l

/-- C9 counterexample: the replication engine's `getObjectsToStabilize` emits
the candidates in listed (hash) order — there is no shuffle in its loop —
while the ec engine's Fisher-Yates with the same candidates and a random draw
of 0 emits a genuinely reordered sequence.  The claim's "for both the
replication and the erasure-code engines" fails on the replication engine. -/
theorem claim_C9_shuffle_counterexample :
    repGetObjectsToStabilize (fun _ => true)
        [⟨1, 0, 1, true, false, "", "", "", false⟩,
          ⟨2, 0, 2, true, false, "", "", "", false⟩] =
      [⟨1, 0, 1, true, false, "", "", "", false⟩,
        ⟨2, 0, 2, true, false, "", "", "", false⟩] ∧
    fyShuffle (fun _ => 0) (stabilizeCandidates (fun _ => true)
        [⟨1, 0, 1, true, false, "", "", "", false⟩,
          ⟨2, 0, 2, true, false, "", "", "", false⟩]) =
      [⟨2, 0, 2, true, false, "", "", "", false⟩,
        ⟨1, 0, 1, true, false, "", "", "", false⟩] ∧
    repGetObjectsToStabilize (fun _ => true)
        [⟨1, 0, 1, true, false, "", "", "", false⟩,
          ⟨2, 0, 2, true, false, "", "", "", false⟩] ≠
      ecGetObjectsToStabilize (fun _ => true) (fun _ => 0)
        [⟨1, 0, 1, true, false, "", "", "", false⟩,
          ⟨2, 0, 2, true, false, "", "", "", false⟩] := by
  refine ⟨rfl, rfl, ?_⟩
  decide

/-- C9 (amended): `getObjectsToStabilize` first expires old tombstones, then
lists the nursery candidates; the **erasure-code** engine shuffles the
candidates before emitting (the emitted sequence is the Fisher-Yates
permutation of the listed candidates), while the **replication** engine emits
them unshuffled, in listed order. -/
theorem claim_C9_stabilize_emission (metaOk : IndexDBItem → Bool)
    (rnd : Nat → Nat) (items : List IndexDBItem) :
    repGetObjectsToStabilize metaOk items = stabilizeCandidates metaOk items ∧
    ecGetObjectsToStabilize metaOk rnd items =
      fyShuffle rnd (stabilizeCandidates metaOk items) ∧
    (ecGetObjectsToStabilize metaOk rnd items).Perm
      (stabilizeCandidates metaOk items) :=
  ⟨rfl, rfl, fyShuffle_perm rnd _⟩
